import Mathlib

/-!
Shallow embedding of `src/magic_pdf/utils/office_to_pdf.py`.

The module has three functions: `check_fonts_installed`, `get_soffice_command`
and `convert_file_to_pdf`.  Their interaction with the operating system
(platform name, font directories, the `fc-list` subprocess, `shutil.which`,
environment variables, filesystem existence tests, and the spawned
LibreOffice process) is abstracted into an `Env` record; the functions are
then pure functions of that environment.  `convert_file_to_pdf` additionally
threads the set of existing directories (for `os.makedirs`) and returns a
trace of the externally visible actions it performed, in order, so that
claims about side effects and their ordering can be stated.

Python exception flow is modelled with `Except`: a `try ... except Exception`
block becomes a `match` on an intermediate `Except` value, and — faithfully
to Python — an exception raised *inside* the `try` body is caught by the
`except` clause of the same block.
-/

namespace OfficeToPdf

/-- The three kinds of exceptions `office_to_pdf.py` can raise:
`FileNotFoundError`, `EnvironmentError`, and the module's own
`ConvertToPdfError`.  Each carries its message string. -/
inductive PdfError where
  | fileNotFound (msg : String)
  | environmentError (msg : String)
  | convertToPdfError (msg : String)
deriving DecidableEq

/-- Python's substring test `needle in hay` on lists of characters:
true iff `needle` occurs contiguously inside `hay`. -/
def listContains (hay needle : List Char) : Bool :=
  match hay with
  | [] => needle.isEmpty
  | c :: t => needle.isPrefixOf (c :: t) || listContains t needle

/-- Python's substring test `needle in hay` on strings. -/
def strContains (hay needle : String) : Bool :=
  listContains hay.data needle.data

/-- Result of `subprocess.run` with captured output: exit code, captured
standard output and captured standard error (already decoded to text). -/
structure RunResult where
  returncode : Int
  stdout : String
  stderr : String

/-- The operating-system environment the module observes:
* `platform` — the value of `platform.system()`;
* `windows_ttf_fonts` — the filenames matched by `Path("C:/Windows/Fonts").glob("*.ttf")`;
* `fc_list` — outcome of `subprocess.check_output(["fc-list", ":lang=zh"])`:
  `.ok output` when the utility launches and exits successfully, `.error e`
  with `e = str(exception)` when launching/running it raises;
* `which_soffice` — the result of `shutil.which("soffice")`;
* `programfiles`, `programfilesX86` — the `PROGRAMFILES` and
  `PROGRAMFILES(X86)` environment variables, when set;
* `existing_paths` — the paths for which `path.exists()` / `os.path.exists`
  is true;
* `files` — the paths for which `os.path.isfile` is true;
* `run` — the behaviour of the spawned conversion process, as a function
  from the argument vector to the captured result. -/
structure Env where
  platform : String
  windows_ttf_fonts : List String
  fc_list : Except String String
  which_soffice : Option String
  programfiles : Option String
  programfilesX86 : Option String
  existing_paths : List String
  files : List String
  run : List String → RunResult

/-- The constant `REQUIRED_CHS_FONTS` from the source. -/
def REQUIRED_CHS_FONTS : List String := ["SimSun", "Microsoft YaHei", "Noto Sans CJK SC"]

/-- The message of the "Missing Chinese font" `EnvironmentError`:
`f"Missing Chinese font. Please install at least one of: {', '.join(REQUIRED_CHS_FONTS)}"`. -/
def missingFontMsg : String :=
  "Missing Chinese font. Please install at least one of: " ++
    String.intercalate ", " REQUIRED_CHS_FONTS

/-- Embedding of `check_fonts_installed()` (source lines 18–42).

On Windows it compares every required family name against every `*.ttf`
filename by substring.  On other platforms the whole `fc-list` interaction
sits inside `try ... except Exception as e`, so *both* a launch failure and
the `EnvironmentError` raised on a missing font are caught and re-raised as
the `"Font detection failed. Please install 'fontconfig' ..."` error. -/
def check_fonts_installed (env : Env) : Except PdfError Bool :=
  if env.platform = "Windows" then
    if REQUIRED_CHS_FONTS.any (fun font => env.windows_ttf_fonts.any (fun f => strContains f font)) then
      .ok true
    else
      .error (.environmentError missingFontMsg)
  else
    let tryBlock : Except String Bool :=
      match env.fc_list with
      | .error e => .error e
      | .ok output =>
          if REQUIRED_CHS_FONTS.any (fun font => strContains output font) then
            .ok true
          else
            .error missingFontMsg
    match tryBlock with
    | .ok b => .ok b
    | .error e =>
        .error (.environmentError
          ("Font detection failed. Please install 'fontconfig' and fonts: " ++ e))

/-- The `ConvertToPdfError` message raised on Windows when no executable is
found (source lines 71–74; note the two Python string literals concatenate
with a single space between `.org/` and `or ensure`). -/
def windowsSofficeNotFoundMsg : String :=
  "LibreOffice not found. Please install LibreOffice from https://www.libreoffice.org/ " ++
    "or ensure soffice.exe is in your PATH environment variable."

/-- The `ConvertToPdfError` message raised inside the non-Windows `try`
block when no executable is found (source lines 89–95). -/
def unixSofficeNotFoundMsg : String :=
  "LibreOffice not found. Please install it:\n" ++
    "  - Ubuntu/Debian: sudo apt-get install libreoffice\n" ++
    "  - CentOS/RHEL: sudo yum install libreoffice\n" ++
    "  - macOS: brew install libreoffice or download from https://www.libreoffice.org/\n" ++
    "  - Or ensure soffice is in your PATH environment variable."

/-- The fixed relative path under which `soffice.exe` is sought on Windows. -/
def windowsSofficeRel : String := "/LibreOffice/program/soffice.exe"

/-- The Windows `possible_paths` list (source lines 56–65): the
`PROGRAMFILES` / `PROGRAMFILES(X86)` locations (with their defaults), the
two literal `Program Files` locations, then drives `C:` through `H:`. -/
def windowsCandidatePaths (env : Env) : List String :=
  [env.programfiles.getD "C:/Program Files" ++ windowsSofficeRel,
   env.programfilesX86.getD "C:/Program Files (x86)" ++ windowsSofficeRel,
   "C:/Program Files" ++ windowsSofficeRel,
   "C:/Program Files (x86)" ++ windowsSofficeRel] ++
  (["C:", "D:", "E:", "F:", "G:", "H:"].map (fun drive => drive ++ windowsSofficeRel))

/-- The non-Windows `possible_paths` list (source lines 79–84). -/
def unixCandidatePaths : List String :=
  ["/usr/bin/soffice",
   "/usr/local/bin/soffice",
   "/opt/libreoffice/program/soffice",
   "/Applications/LibreOffice.app/Contents/MacOS/soffice"]

/-- Embedding of `get_soffice_command()` (source lines 45–97).

`shutil.which("soffice")` is consulted first on every platform.  Then the
platform's candidate list is scanned for the first existing path.  On
Windows the not-found error is raised directly; on other platforms the whole
branch sits inside `try ... except Exception as e`, so the not-found
`ConvertToPdfError` raised inside the `try` is caught and re-raised as
`f"Error locating LibreOffice: {str(e)}"` — its message still contains the
original installation guidance. -/
def get_soffice_command (env : Env) : Except PdfError String :=
  match env.which_soffice with
  | some p => .ok p
  | none =>
    if env.platform = "Windows" then
      match (windowsCandidatePaths env).find? (fun p => env.existing_paths.contains p) with
      | some p => .ok p
      | none => .error (.convertToPdfError windowsSofficeNotFoundMsg)
    else
      let tryBlock : Except String String :=
        match unixCandidatePaths.find? (fun p => env.existing_paths.contains p) with
        | some p => .ok p
        | none => .error unixSofficeNotFoundMsg
      match tryBlock with
      | .ok p => .ok p
      | .error e => .error (.convertToPdfError ("Error locating LibreOffice: " ++ e))

/-- Externally visible actions of `convert_file_to_pdf`, in order:
ensuring a directory exists (`os.makedirs`), running the font check, and
spawning a subprocess with the given argument vector. -/
inductive Event where
  | madeDir (d : String)
  | fontCheck
  | spawn (cmd : List String)
deriving DecidableEq

/-- The directory `p` together with all its ancestors, as created by
`os.makedirs(p)`: every proper prefix of `p` at a `/` separator, then `p`
itself. -/
def pathPrefixes (p : String) : List String :=
  let comps := p.splitOn "/"
  ((List.range (comps.length - 1)).map
    (fun i => String.intercalate "/" (comps.take (i + 1)))) ++ [p]

/-- `os.makedirs(d, exist_ok=True)` over a set of existing directories:
adds `d` and every missing ancestor; never fails, in particular not when
`d` already exists. -/
def makedirs (d : String) (fs : List String) : List String :=
  ((pathPrefixes d).filter (fun q => !(fs.contains q))) ++ fs

/-- The fixed argument vector of the spawned conversion process
(source lines 111–119). -/
def sofficeArgs (soffice_cmd output_dir input_path : String) : List String :=
  [soffice_cmd,
   "--headless",
   "--norestore",
   "--invisible",
   "--convert-to", "pdf",
   "--outdir", output_dir,
   input_path]

/-- Embedding of `convert_file_to_pdf(input_path, output_dir)` (source
lines 100–124).  Returns the outcome, the updated set of existing
directories, and the trace of externally visible actions in order. -/
def convert_file_to_pdf (env : Env) (input_path output_dir : String)
    (fs : List String) : Except PdfError Unit × List String × List Event :=
  if env.files.contains input_path = false then
    (.error (.fileNotFound ("The input file " ++ input_path ++ " does not exist.")), fs, [])
  else
    let fs1 := makedirs output_dir fs
    match check_fonts_installed env with
    | .error e => (.error e, fs1, [.madeDir output_dir, .fontCheck])
    | .ok _ =>
      match get_soffice_command env with
      | .error e => (.error e, fs1, [.madeDir output_dir, .fontCheck])
      | .ok soffice_cmd =>
        let cmd := sofficeArgs soffice_cmd output_dir input_path
        let process := env.run cmd
        if process.returncode ≠ 0 then
          (.error (.convertToPdfError ("LibreOffice convert failed: " ++ process.stderr)),
           fs1, [.madeDir output_dir, .fontCheck, .spawn cmd])
        else
          (.ok (), fs1, [.madeDir output_dir, .fontCheck, .spawn cmd])

/-! ### Helper lemmas -/

theorem isPrefixOf_self (l : List Char) : l.isPrefixOf l = true := by
  induction l with
  | nil => rfl
  | cons c t ih => simp [List.isPrefixOf, ih]

theorem listContains_self (l : List Char) : listContains l l = true := by
  cases l with
  | nil => rfl
  | cons c t => simp [listContains, isPrefixOf_self]

theorem listContains_append_self (x y : List Char) : listContains (x ++ y) y = true := by
  induction x with
  | nil => simpa using listContains_self y
  | cons c t ih => simp [listContains, ih]

theorem strContains_append_self (a b : String) : strContains (a ++ b) b = true := by
  simpa [strContains] using listContains_append_self a.data b.data

theorem self_mem_pathPrefixes (p : String) : p ∈ pathPrefixes p := by
  simp [pathPrefixes]

theorem mem_makedirs_of_mem_pathPrefixes {q d : String} (fs : List String)
    (h : q ∈ pathPrefixes d) : q ∈ makedirs d fs := by
  by_cases hq : fs.contains q
  · exact List.mem_append_right _ (by simpa using hq)
  · exact List.mem_append_left _ (List.mem_filter.mpr ⟨h, by simpa using hq⟩)

/-- With an existing input file, the returned directory set is exactly
`makedirs output_dir fs`, whatever the outcome. -/
theorem convert_dirs_eq (env : Env) (input_path output_dir : String)
    (fs : List String) (hin : env.files.contains input_path = true) :
    (convert_file_to_pdf env input_path output_dir fs).2.1 = makedirs output_dir fs := by
  have hin' : input_path ∈ env.files := by simpa using hin
  simp [convert_file_to_pdf, hin']
  cases hc : check_fonts_installed env with
  | error e => simp
  | ok b =>
    cases hs : get_soffice_command env with
    | error e => simp
    | ok sc =>
      split <;>
        by_cases hr : (env.run (sofficeArgs sc output_dir input_path)).returncode = 0 <;>
          simp [hr]

/-- With an existing input file, the outcome does not depend on the set of
directories that already exist. -/
theorem convert_fst_indep (env : Env) (input_path output_dir : String)
    (fs fs' : List String) (hin : env.files.contains input_path = true) :
    (convert_file_to_pdf env input_path output_dir fs).1 =
      (convert_file_to_pdf env input_path output_dir fs').1 := by
  have hin' : input_path ∈ env.files := by simpa using hin
  simp [convert_file_to_pdf, hin']
  cases hc : check_fonts_installed env with
  | error e => simp
  | ok b =>
    cases hs : get_soffice_command env with
    | error e => simp
    | ok sc =>
      split <;>
        by_cases hr : (env.run (sofficeArgs sc output_dir input_path)).returncode = 0 <;>
          simp [hr]

/-! ### Concrete environments for witnesses and counterexamples -/

/-- A Linux environment where `fc-list` launches and exits successfully but
prints no required font, no executable is on the search path, nothing
exists, and one input file is present. -/
def envFcEmpty : Env :=
  { platform := "Linux"
    windows_ttf_fonts := []
    fc_list := .ok "DejaVu Sans:style=Book"
    which_soffice := none
    programfiles := none
    programfilesX86 := none
    existing_paths := []
    files := ["/tmp/a.doc"]
    run := fun _ => ⟨0, "", ""⟩ }

/-- A Linux environment where fonts are present, `soffice` is on the search
path, the input file exists, and the spawned process exits with code 1 and
standard error "bad format". -/
def envBadFormat : Env :=
  { platform := "Linux"
    windows_ttf_fonts := []
    fc_list := .ok "Noto Sans CJK SC:style=Regular"
    which_soffice := some "/usr/bin/soffice"
    programfiles := none
    programfilesX86 := none
    existing_paths := []
    files := ["/tmp/a.doc"]
    run := fun _ => ⟨1, "", "bad format"⟩ }

/-- A Linux environment with no input files at all. -/
def envNoFile : Env :=
  { platform := "Linux"
    windows_ttf_fonts := []
    fc_list := .ok "Noto Sans CJK SC:style=Regular"
    which_soffice := some "/usr/bin/soffice"
    programfiles := none
    programfilesX86 := none
    existing_paths := []
    files := []
    run := fun _ => ⟨0, "", ""⟩ }

/-! ### Claims -/

/-- C1, counterexample.  The claim says the diagnostic suggesting the
font-configuration package is produced only when launching the utility
fails.  In `envFcEmpty` the utility launches and runs successfully
(`fc_list = .ok _`), no required family appears in its output, and yet the
resulting `EnvironmentError` message does contain the `fontconfig`
diagnostic: the `EnvironmentError` raised inside the `try` block is caught
by its own `except Exception` clause and re-wrapped. -/
theorem c1_fontconfig_only_on_launch_failure_false :
    check_fonts_installed envFcEmpty =
      .error (.environmentError
        ("Font detection failed. Please install 'fontconfig' and fonts: " ++ missingFontMsg))
    ∧ strContains
        ("Font detection failed. Please install 'fontconfig' and fonts: " ++ missingFontMsg)
        "fontconfig" = true :=
  ⟨rfl, rfl⟩

/-- C1, amended.  On non-Windows platforms, when the font-listing utility
launches and runs successfully but none of the required font family names
appears in its output, `check_fonts_installed` fails with an
`EnvironmentError` whose message lists all required font family names; that
message also carries the diagnostic suggesting installation of the
font-configuration package, which is produced on every failure of the
non-Windows check (launch failure or no font found), not only when
launching the utility fails. -/
theorem c1_missing_font_wrapped (env : Env) (output : String)
    (hplat : env.platform ≠ "Windows")
    (hfc : env.fc_list = .ok output)
    (hnone : REQUIRED_CHS_FONTS.any (fun font => strContains output font) = false) :
    check_fonts_installed env =
      .error (.environmentError
        ("Font detection failed. Please install 'fontconfig' and fonts: " ++ missingFontMsg))
    ∧ (∀ font ∈ REQUIRED_CHS_FONTS,
        strContains
          ("Font detection failed. Please install 'fontconfig' and fonts: " ++ missingFontMsg)
          font = true) := by
  constructor
  · simp [check_fonts_installed, hplat, hfc, hnone]
  · decide

/-- C1, witness for the amended theorem at the concrete `envFcEmpty`. -/
theorem c1_missing_font_wrapped_witness :
    check_fonts_installed envFcEmpty =
      .error (.environmentError
        ("Font detection failed. Please install 'fontconfig' and fonts: " ++ missingFontMsg))
    ∧ (∀ font ∈ REQUIRED_CHS_FONTS,
        strContains
          ("Font detection failed. Please install 'fontconfig' and fonts: " ++ missingFontMsg)
          font = true) :=
  c1_missing_font_wrapped envFcEmpty "DejaVu Sans:style=Book"
    (by decide) rfl (by decide)

/-- C2.  When the input file exists, the font check succeeds and an
executable is located, the outcome is decided solely by the spawned
process's exit code: zero yields a normal return, nonzero yields a
`ConvertToPdfError` whose message contains the captured standard-error
text.  Nothing else (in particular no inspection of the produced PDF)
enters the outcome. -/
theorem c2_exit_code_decides (env : Env) (input_path output_dir : String)
    (fs : List String) (b : Bool) (sc : String)
    (hin : env.files.contains input_path = true)
    (hfonts : check_fonts_installed env = .ok b)
    (hsoffice : get_soffice_command env = .ok sc) :
    ((env.run (sofficeArgs sc output_dir input_path)).returncode = 0 →
      (convert_file_to_pdf env input_path output_dir fs).1 = .ok ())
    ∧ ((env.run (sofficeArgs sc output_dir input_path)).returncode ≠ 0 →
        (convert_file_to_pdf env input_path output_dir fs).1 =
          .error (.convertToPdfError
            ("LibreOffice convert failed: " ++ (env.run (sofficeArgs sc output_dir input_path)).stderr))
        ∧ strContains
            ("LibreOffice convert failed: " ++ (env.run (sofficeArgs sc output_dir input_path)).stderr)
            ((env.run (sofficeArgs sc output_dir input_path)).stderr) = true) := by
  have hin' : input_path ∈ env.files := by simpa using hin
  constructor
  · intro h0
    simp [convert_file_to_pdf, hin', hfonts, hsoffice, h0]
  · intro h0
    refine ⟨?_, strContains_append_self _ _⟩
    simp [convert_file_to_pdf, hin', hfonts, hsoffice, h0]

/-- C2, witness: in `envBadFormat` the process exits with code 1 and stderr
"bad format", and the call fails with a conversion error whose message
contains "bad format". -/
theorem c2_exit_code_decides_witness :
    (convert_file_to_pdf envBadFormat "/tmp/a.doc" "/tmp/out" []).1 =
      .error (.convertToPdfError "LibreOffice convert failed: bad format")
    ∧ strContains "LibreOffice convert failed: bad format" "bad format" = true := by
  have h := c2_exit_code_decides envBadFormat "/tmp/a.doc" "/tmp/out" [] true
    "/usr/bin/soffice" rfl rfl rfl
  exact ⟨(h.2 (by decide)).1, (h.2 (by decide)).2⟩

/-- C3.  When `input_path` is not an existing regular file,
`convert_file_to_pdf` fails with the not-found error and performs no other
action: the directory set is returned unchanged and the trace is empty (no
directory creation, no font check, no spawned process). -/
theorem c3_missing_input_no_side_effects (env : Env) (input_path output_dir : String)
    (fs : List String) (hin : env.files.contains input_path = false) :
    convert_file_to_pdf env input_path output_dir fs =
      (.error (.fileNotFound ("The input file " ++ input_path ++ " does not exist.")), fs, []) := by
  have hin' : input_path ∉ env.files := by simpa using hin
  simp [convert_file_to_pdf, hin']

/-- C3, witness at the concrete `envNoFile`. -/
theorem c3_missing_input_no_side_effects_witness :
    convert_file_to_pdf envNoFile "/tmp/missing.doc" "/tmp/out" ["/tmp"] =
      (.error (.fileNotFound "The input file /tmp/missing.doc does not exist."), ["/tmp"], []) :=
  c3_missing_input_no_side_effects envNoFile "/tmp/missing.doc" "/tmp/out" ["/tmp"] rfl

/-- C9.  `check_fonts_installed` never returns `false`: on every
environment it either returns `true` or fails with an `EnvironmentError`,
so a normal return always means a required font was detected. -/
theorem c9_never_returns_false (env : Env) :
    check_fonts_installed env = .ok true
    ∨ ∃ m, check_fonts_installed env = .error (.environmentError m) := by
  by_cases hplat : env.platform = "Windows" <;>
    simp only [check_fonts_installed, hplat, if_true, if_false, reduceIte]
  · split
    · exact .inl rfl
    · exact .inr ⟨_, rfl⟩
  · cases hfc : env.fc_list with
    | error e => exact .inr ⟨_, rfl⟩
    | ok output =>
      by_cases hany : REQUIRED_CHS_FONTS.any (fun font => strContains output font) = true
      · simp [hany]
      · simp [hany]

/-- A Linux environment where fonts are present, `soffice` is on the search
path, the input file exists, and the spawned process exits with code 0. -/
def envConvertOk : Env :=
  { platform := "Linux"
    windows_ttf_fonts := []
    fc_list := .ok "SimSun:style=Regular"
    which_soffice := some "/usr/bin/soffice"
    programfiles := none
    programfilesX86 := none
    existing_paths := []
    files := ["/tmp/a.doc"]
    run := fun _ => ⟨0, "converted", ""⟩ }

/-- A Windows environment whose font directory contains a file matching a
required family name. -/
def envWindowsFonts : Env :=
  { platform := "Windows"
    windows_ttf_fonts := ["SimSun.ttf", "arial.ttf"]
    fc_list := .error "unused"
    which_soffice := none
    programfiles := none
    programfilesX86 := none
    existing_paths := []
    files := []
    run := fun _ => ⟨0, "", ""⟩ }

/-- With an existing input file, the trace of `convert_file_to_pdf` always
starts with the creation of `output_dir`, whatever happens afterwards. -/
theorem convert_trace_head (env : Env) (input_path output_dir : String)
    (fs : List String) (hin : env.files.contains input_path = true) :
    (convert_file_to_pdf env input_path output_dir fs).2.2.head? =
      some (.madeDir output_dir) := by
  have hin' : input_path ∈ env.files := by simpa using hin
  simp [convert_file_to_pdf, hin']
  cases hc : check_fonts_installed env with
  | error e => simp
  | ok b =>
    cases hs : get_soffice_command env with
    | error e => simp
    | ok sc =>
      split <;>
        by_cases hr : (env.run (sofficeArgs sc output_dir input_path)).returncode = 0 <;>
          simp [hr]

/-- C6.  For every existing input file, `convert_file_to_pdf` ends with
`output_dir` and all its missing ancestors in the set of existing
directories, and its outcome does not depend on which directories already
existed — in particular a second call with the same `output_dir` (whose
directory then already exists) gives the same outcome and never fails
because the directory is already there. -/
theorem c6_outdir_creation_idempotent (env : Env) (input_path output_dir : String)
    (fs fs' : List String) (hin : env.files.contains input_path = true) :
    (∀ q ∈ pathPrefixes output_dir, q ∈ (convert_file_to_pdf env input_path output_dir fs).2.1)
    ∧ (convert_file_to_pdf env input_path output_dir fs').1 =
        (convert_file_to_pdf env input_path output_dir fs).1 := by
  constructor
  · intro q hq
    rw [convert_dirs_eq env input_path output_dir fs hin]
    exact mem_makedirs_of_mem_pathPrefixes fs hq
  · exact convert_fst_indep env input_path output_dir fs' fs hin

/-- C6, witness at `envConvertOk`, with the second directory set taken to
be the result of the first call (the "called twice" scenario). -/
theorem c6_outdir_creation_idempotent_witness :
    (∀ q ∈ pathPrefixes "/tmp/out",
      q ∈ (convert_file_to_pdf envConvertOk "/tmp/a.doc" "/tmp/out" []).2.1)
    ∧ (convert_file_to_pdf envConvertOk "/tmp/a.doc" "/tmp/out"
          ((convert_file_to_pdf envConvertOk "/tmp/a.doc" "/tmp/out" []).2.1)).1 =
        (convert_file_to_pdf envConvertOk "/tmp/a.doc" "/tmp/out" []).1 :=
  c6_outdir_creation_idempotent envConvertOk "/tmp/a.doc" "/tmp/out" []
    ((convert_file_to_pdf envConvertOk "/tmp/a.doc" "/tmp/out" []).2.1) rfl

/-- C7.  On Windows, `check_fonts_installed` returns `true` iff some
required font family name is a substring of the filename of some `*.ttf`
file in the system font directory; otherwise it fails with an
`EnvironmentError` whose message names all acceptable font families. -/
theorem c7_windows_font_check (env : Env) (hplat : env.platform = "Windows") :
    (check_fonts_installed env = .ok true ↔
      ∃ font ∈ REQUIRED_CHS_FONTS, ∃ f ∈ env.windows_ttf_fonts, strContains f font = true)
    ∧ ((¬ ∃ font ∈ REQUIRED_CHS_FONTS, ∃ f ∈ env.windows_ttf_fonts, strContains f font = true) →
        check_fonts_installed env = .error (.environmentError missingFontMsg)
        ∧ ∀ font ∈ REQUIRED_CHS_FONTS, strContains missingFontMsg font = true) := by
  have hiff : (REQUIRED_CHS_FONTS.any
      (fun font => env.windows_ttf_fonts.any (fun f => strContains f font)) = true) ↔
      ∃ font ∈ REQUIRED_CHS_FONTS, ∃ f ∈ env.windows_ttf_fonts, strContains f font = true := by
    simp [List.any_eq_true]
  by_cases hb : REQUIRED_CHS_FONTS.any
      (fun font => env.windows_ttf_fonts.any (fun f => strContains f font)) = true
  · have hex := hiff.mp hb
    refine ⟨⟨fun _ => hex, fun _ => by simp [check_fonts_installed, hplat, hb]⟩,
      fun hne => absurd hex hne⟩
  · have hex : ¬ ∃ font ∈ REQUIRED_CHS_FONTS, ∃ f ∈ env.windows_ttf_fonts,
        strContains f font = true := fun h => hb (hiff.mpr h)
    refine ⟨⟨fun hok => ?_, fun h => absurd h hex⟩,
      fun _ => ⟨by simp [check_fonts_installed, hplat, hb], by decide⟩⟩
    rw [check_fonts_installed, if_pos hplat, if_neg (by simpa using hb)] at hok
    exact absurd hok (by simp)

/-- C7, witness at `envWindowsFonts`, where "SimSun" is a substring of
"SimSun.ttf". -/
theorem c7_windows_font_check_witness :
    (check_fonts_installed envWindowsFonts = .ok true ↔
      ∃ font ∈ REQUIRED_CHS_FONTS, ∃ f ∈ envWindowsFonts.windows_ttf_fonts,
        strContains f font = true)
    ∧ ((¬ ∃ font ∈ REQUIRED_CHS_FONTS, ∃ f ∈ envWindowsFonts.windows_ttf_fonts,
          strContains f font = true) →
        check_fonts_installed envWindowsFonts = .error (.environmentError missingFontMsg)
        ∧ ∀ font ∈ REQUIRED_CHS_FONTS, strContains missingFontMsg font = true) :=
  c7_windows_font_check envWindowsFonts rfl

/-- C8.  When the input exists, the font check succeeds and an executable
is located, exactly one process is spawned, with the located executable and
the fixed argument template (headless, no-restore, invisible, convert-to
pdf, outdir `output_dir`, then `input_path`); its output streams are
captured, not streamed (the model only ever sees the captured
`RunResult`). -/
theorem c8_spawn_exact_command (env : Env) (input_path output_dir : String)
    (fs : List String) (b : Bool) (sc : String)
    (hin : env.files.contains input_path = true)
    (hfonts : check_fonts_installed env = .ok b)
    (hsoffice : get_soffice_command env = .ok sc) :
    (convert_file_to_pdf env input_path output_dir fs).2.2 =
      [.madeDir output_dir, .fontCheck,
       .spawn [sc, "--headless", "--norestore", "--invisible",
               "--convert-to", "pdf", "--outdir", output_dir, input_path]] := by
  have hin' : input_path ∈ env.files := by simpa using hin
  simp [convert_file_to_pdf, hin', hfonts, hsoffice, sofficeArgs]
  split <;> rfl

/-- C8, witness at `envConvertOk`. -/
theorem c8_spawn_exact_command_witness :
    (convert_file_to_pdf envConvertOk "/tmp/a.doc" "/tmp/out" []).2.2 =
      [.madeDir "/tmp/out", .fontCheck,
       .spawn ["/usr/bin/soffice", "--headless", "--norestore", "--invisible",
               "--convert-to", "pdf", "--outdir", "/tmp/out", "/tmp/a.doc"]] :=
  c8_spawn_exact_command envConvertOk "/tmp/a.doc" "/tmp/out" [] true
    "/usr/bin/soffice" rfl rfl rfl

/-- C10.  For every existing input file, the very first action of
`convert_file_to_pdf` is the creation of `output_dir` — before the font
check and before any spawned process — and `output_dir` is in the directory
set afterwards whatever the outcome, so it survives every failure. -/
theorem c10_outdir_created_first (env : Env) (input_path output_dir : String)
    (fs : List String) (hin : env.files.contains input_path = true) :
    (convert_file_to_pdf env input_path output_dir fs).2.2.head? =
      some (.madeDir output_dir)
    ∧ output_dir ∈ (convert_file_to_pdf env input_path output_dir fs).2.1 := by
  refine ⟨convert_trace_head env input_path output_dir fs hin, ?_⟩
  rw [convert_dirs_eq env input_path output_dir fs hin]
  exact mem_makedirs_of_mem_pathPrefixes fs (self_mem_pathPrefixes output_dir)

/-- C10, witness at `envFcEmpty`, where the call fails with an environment
error and the output directory is nevertheless created first. -/
theorem c10_outdir_created_first_witness :
    (convert_file_to_pdf envFcEmpty "/tmp/a.doc" "/tmp/out" []).2.2.head? =
      some (.madeDir "/tmp/out")
    ∧ "/tmp/out" ∈ (convert_file_to_pdf envFcEmpty "/tmp/a.doc" "/tmp/out" []).2.1 :=
  c10_outdir_created_first envFcEmpty "/tmp/a.doc" "/tmp/out" [] rfl

/-- The successful value of an executable-locator outcome, if any. -/
def okPath : Except PdfError String → Option String
  | .ok p => some p
  | .error _ => none

/-- Search procedure written from the spec's words (§4.2 Executable
Locator): (1) the executable's name resolved via the process's search path;
(2) on Windows, a fixed list of candidate install paths — the
`PROGRAMFILES` / `PROGRAMFILES(X86)` locations (§6), their default
`Program Files` / `Program Files (x86)` locations, and the same relative
path under drive letters C through H; (3) on other platforms, a fixed list
of standard Unix/macOS install paths.  The first existing path wins; no
validation beyond existence is performed. -/
def sofficeSearchSpec (env : Env) : Option String :=
  match env.which_soffice with
  | some p => some p
  | none =>
    (if env.platform = "Windows" then
      [env.programfiles.getD "C:/Program Files" ++ "/LibreOffice/program/soffice.exe",
       env.programfilesX86.getD "C:/Program Files (x86)" ++ "/LibreOffice/program/soffice.exe",
       "C:/Program Files/LibreOffice/program/soffice.exe",
       "C:/Program Files (x86)/LibreOffice/program/soffice.exe",
       "C:/LibreOffice/program/soffice.exe",
       "D:/LibreOffice/program/soffice.exe",
       "E:/LibreOffice/program/soffice.exe",
       "F:/LibreOffice/program/soffice.exe",
       "G:/LibreOffice/program/soffice.exe",
       "H:/LibreOffice/program/soffice.exe"]
     else
      ["/usr/bin/soffice",
       "/usr/local/bin/soffice",
       "/opt/libreoffice/program/soffice",
       "/Applications/LibreOffice.app/Contents/MacOS/soffice"]).find?
      (fun p => env.existing_paths.contains p)

/-- C4.  `get_soffice_command` resolves exactly as the spec's search order
describes: it succeeds with path `p` precisely when the spec-side search
(`sofficeSearchSpec`) yields `p` — search path first, then the platform's
fixed candidate list, first existing path winning, existence being the only
check — and when the search yields nothing it fails with a
`ConvertToPdfError`. -/
theorem c4_search_order (env : Env) :
    okPath (get_soffice_command env) = sofficeSearchSpec env
    ∧ (sofficeSearchSpec env = none →
        ∃ m, get_soffice_command env = .error (.convertToPdfError m)) := by
  cases hw : env.which_soffice with
  | some p =>
    simp [get_soffice_command, sofficeSearchSpec, okPath, hw]
  | none =>
    by_cases hplat : env.platform = "Windows"
    · have hspec : sofficeSearchSpec env =
          (windowsCandidatePaths env).find? (fun p => env.existing_paths.contains p) := by
        unfold sofficeSearchSpec
        rw [hw, if_pos hplat]
        exact rfl
      have hcode : get_soffice_command env =
          match (windowsCandidatePaths env).find? (fun p => env.existing_paths.contains p) with
          | some p => Except.ok p
          | none => Except.error (.convertToPdfError windowsSofficeNotFoundMsg) := by
        unfold get_soffice_command
        rw [hw, if_pos hplat]
      rw [hspec, hcode]
      cases hf : (windowsCandidatePaths env).find? (fun p => env.existing_paths.contains p) with
      | some p => exact ⟨rfl, fun h => Option.noConfusion h⟩
      | none => exact ⟨rfl, fun _ => ⟨_, rfl⟩⟩
    · have hspec : sofficeSearchSpec env =
          unixCandidatePaths.find? (fun p => env.existing_paths.contains p) := by
        unfold sofficeSearchSpec
        rw [hw, if_neg hplat]
        exact rfl
      have hcode : get_soffice_command env =
          match unixCandidatePaths.find? (fun p => env.existing_paths.contains p) with
          | some p => Except.ok p
          | none => Except.error (.convertToPdfError
              ("Error locating LibreOffice: " ++ unixSofficeNotFoundMsg)) := by
        unfold get_soffice_command
        rw [hw, if_neg hplat]
        cases hf : unixCandidatePaths.find? (fun p => env.existing_paths.contains p) <;>
          exact rfl
      rw [hspec, hcode]
      cases hf : unixCandidatePaths.find? (fun p => env.existing_paths.contains p) with
      | some p => exact ⟨rfl, fun h => Option.noConfusion h⟩
      | none => exact ⟨rfl, fun _ => ⟨_, rfl⟩⟩

/-- C4, witness at the concrete `envConvertOk`: the search-path hit wins. -/
theorem c4_search_order_witness :
    okPath (get_soffice_command envConvertOk) = sofficeSearchSpec envConvertOk
    ∧ (sofficeSearchSpec envConvertOk = none →
        ∃ m, get_soffice_command envConvertOk = .error (.convertToPdfError m)) :=
  c4_search_order envConvertOk

/-- C5.  When the search path yields nothing and none of the fixed
candidate paths exists, `get_soffice_command` fails with a
`ConvertToPdfError` whose message contains the installation guidance for
the current platform (the download link on Windows, the package-manager
commands elsewhere — the latter wrapped in the `"Error locating
LibreOffice:"` prefix by the surrounding exception handler, but still
contained in the message). -/
theorem c5_locator_failure_guidance (env : Env)
    (hwhich : env.which_soffice = none)
    (hwin : (windowsCandidatePaths env).find? (fun p => env.existing_paths.contains p) = none)
    (hux : unixCandidatePaths.find? (fun p => env.existing_paths.contains p) = none) :
    ∃ m, get_soffice_command env = .error (.convertToPdfError m)
      ∧ (env.platform = "Windows" →
          strContains m "Please install LibreOffice from https://www.libreoffice.org/" = true)
      ∧ (env.platform ≠ "Windows" →
          strContains m "sudo apt-get install libreoffice" = true) := by
  by_cases hplat : env.platform = "Windows"
  · refine ⟨windowsSofficeNotFoundMsg, ?_, fun _ => by rfl, fun h => absurd hplat h⟩
    unfold get_soffice_command
    rw [hwhich, if_pos hplat, hwin]
  · refine ⟨"Error locating LibreOffice: " ++ unixSofficeNotFoundMsg, ?_,
      fun h => absurd h hplat, fun _ => by rfl⟩
    unfold get_soffice_command
    rw [hwhich, if_neg hplat, hux]

/-- C5, witness at the concrete `envFcEmpty` (empty search path, nothing
exists, Linux). -/
theorem c5_locator_failure_guidance_witness :
    ∃ m, get_soffice_command envFcEmpty = .error (.convertToPdfError m)
      ∧ (envFcEmpty.platform = "Windows" →
          strContains m "Please install LibreOffice from https://www.libreoffice.org/" = true)
      ∧ (envFcEmpty.platform ≠ "Windows" →
          strContains m "sudo apt-get install libreoffice" = true) :=
  c5_locator_failure_guidance envFcEmpty rfl rfl rfl

end OfficeToPdf
